import Mathlib

/-!
Verification of the host-side USB transport in src/adb/usb_linux.cpp.

The C code is shallowly embedded:
* the per-device descriptor scan of find_usb_device (lines 157-289) becomes
  a pure function over the byte buffer, modelled as a total function
  Nat -> Nat (the 4096-byte stack array devdesc, whose bytes past the
  supplied read length desclength hold arbitrary garbage) together with an
  explicit length; every buffer access is logged with its byte offset so
  that out-of-bounds behaviour can be stated;
* the unbounded while loop of the descriptor walk is given explicit fuel;
  a fuelOut result for every fuel witnesses divergence of the C loop;
* usb_handle becomes a structure; the kernel (ioctl) and the other threads
  are modelled as oracles / event lists supplied to each operation, and the
  kernel requests an operation performs are returned as an action trace;
* external collaborators (is_adb_interface, register_usb_transport,
  unregister_usb_transport, file system reads) are parameters or returned
  outputs, following the spec which puts them outside the core.
-/

namespace UsbLinux

/-! Constants from linux/usb/ch9.h and errno. -/

def USB_DT_DEVICE : Nat := 1
def USB_DT_CONFIG : Nat := 2
def USB_DT_INTERFACE : Nat := 4
def USB_DT_ENDPOINT : Nat := 5
def USB_DT_SS_ENDPOINT_COMP : Nat := 48
def USB_DT_DEVICE_SIZE : Nat := 18
def USB_DT_CONFIG_SIZE : Nat := 9
def USB_DT_INTERFACE_SIZE : Nat := 9
def USB_DT_ENDPOINT_SIZE : Nat := 7
def USB_DT_SS_EP_COMP_SIZE : Nat := 6
def USB_ENDPOINT_DIR_MASK : Nat := 128
def USB_ENDPOINT_XFER_BULK : Nat := 2

def EINTR : Nat := 4
def ENODEV : Nat := 19
def EINVAL : Nat := 22
def ETIMEDOUT : Nat := 110

/-! Descriptor parser (find_usb_device lines 157-289).

Reads of the descriptor buffer are logged as events carrying the byte
offset and the kind of record being read.  The logged set slightly
over-approximates the reads the C short-circuit evaluation performs (a
read that C may skip because an earlier conjunct already failed is still
logged); it never under-approximates, and every event used in a
counterexample below corresponds to a read the C code performs
unconditionally. -/

inductive RdKind
| hdr
| tag
| iface
| ep
| probe
deriving DecidableEq

structure RdEv where
  off : Nat
  k : RdKind
deriving DecidableEq

/-- Result of a successful match, the arguments the source passes to
register_device_callback (endpoint in, endpoint out, bInterfaceNumber,
iSerialNumber, zero_mask). -/
structure MatchInfo where
  ep_in : Nat
  ep_out : Nat
  interfaceNumber : Nat
  serialIndex : Nat
  zero_mask : Nat
deriving DecidableEq

inductive WalkRes
| found (m : MatchInfo)
| nomatch
| fuelOut
deriving DecidableEq

/-- Little-endian 16-bit field at offset i, as the C struct view reads it. -/
def readLE16 (buf : Nat → Nat) (i : Nat) : Nat := buf i + 256 * buf (i + 1)

/-- The SuperSpeed endpoint-companion probe (lines 222-226 and 229-233):
if bufptr+2 <= devdesc+desclength and the two bytes at bufptr are the
companion size/type tags, skip the companion record.  Returns the new
cursor and the logged reads (the C && short-circuits, so the second byte
is read only when the first matched). -/
def ssProbe (buf : Nat → Nat) (dlen p : Nat) : Nat × List RdEv :=
  if p + 2 ≤ dlen then
    if buf p = USB_DT_SS_EP_COMP_SIZE then
      if buf (p + 1) = USB_DT_SS_ENDPOINT_COMP then
        (p + USB_DT_SS_EP_COMP_SIZE, [⟨p, .probe⟩, ⟨p + 1, .probe⟩])
      else (p, [⟨p, .probe⟩, ⟨p + 1, .probe⟩])
    else (p, [⟨p, .probe⟩])
  else (p, [])

/-- Outcome of the endpoint scan inside a matched interface record
(lines 211-284): abort the whole walk (break), continue the walk at the
advanced cursor (the continue for non-bulk attributes), or a full match
(register_device_callback then break). -/
inductive EpOut
| abort
| cont (pAfter : Nat)
| found (m : MatchInfo)
deriving DecidableEq

/-- Endpoint scan for a matched interface record starting at offset q
(so the cursor already advanced to q + USB_DT_INTERFACE_SIZE).
Faithful to lines 211-284 of find_usb_device:
ep1 at the cursor, optional companion skip, ep2, optional companion skip,
then the bounds check bufptr > devdesc+desclength, the length/type tag
checks on both endpoint records, the bulk-attribute check (continue on
failure), the aproto 01 zero mask computation (wMaxPacketSize - 1 on a
32-bit unsigned), and the direction-bit assignment of ep_in/ep_out. -/
def scan_endpoints (buf : Nat → Nat) (dlen q zmask serialIdx : Nat) : EpOut × List RdEv :=
  let e1 := q + USB_DT_INTERFACE_SIZE
  let pr1 := ssProbe buf dlen (e1 + USB_DT_ENDPOINT_SIZE)
  let e2 := pr1.1
  let pr2 := ssProbe buf dlen (e2 + USB_DT_ENDPOINT_SIZE)
  let pA := pr2.1
  let rds := pr1.2 ++ pr2.2
  if dlen < pA then (.abort, rds)
  else
    let rdsE := rds ++ [⟨e1, .ep⟩, ⟨e1 + 1, .ep⟩, ⟨e2, .ep⟩, ⟨e2 + 1, .ep⟩]
    if buf e1 ≠ USB_DT_ENDPOINT_SIZE ∨ buf (e1 + 1) ≠ USB_DT_ENDPOINT ∨
        buf e2 ≠ USB_DT_ENDPOINT_SIZE ∨ buf (e2 + 1) ≠ USB_DT_ENDPOINT then
      (.abort, rdsE)
    else
      let rdsA := rdsE ++ [⟨e1 + 3, .ep⟩, ⟨e2 + 3, .ep⟩]
      if buf (e1 + 3) ≠ USB_ENDPOINT_XFER_BULK ∨ buf (e2 + 3) ≠ USB_ENDPOINT_XFER_BULK then
        (.cont pA, rdsA)
      else
        let proto := buf (q + 7)
        let zm := if proto = 1 then (readLE16 buf (e1 + 4) + 4294967295) % 4294967296 else zmask
        let rdsZ := rdsA ++ [⟨q + 7, .iface⟩] ++
          (if proto = 1 then [⟨e1 + 4, .ep⟩, ⟨e1 + 5, .ep⟩] else []) ++
          [⟨e1 + 2, .ep⟩, ⟨e2 + 2, .ep⟩, ⟨q + 2, .iface⟩]
        let a1 := buf (e1 + 2)
        let a2 := buf (e2 + 2)
        if a1 &&& USB_ENDPOINT_DIR_MASK ≠ 0 then
          (.found ⟨a1, a2, buf (q + 2), serialIdx, zm⟩, rdsZ)
        else
          (.found ⟨a2, a1, buf (q + 2), serialIdx, zm⟩, rdsZ)

/-- The descriptor record walk, lines 189-289: while (bufptr < bufend)
read the (length, type) tag of the record at the cursor; on an interface
record advance by its declared length, check the declared length, read
the interface fields and, when the signature matches, run the endpoint
scan; on any other record advance by the declared length.  The C loop is
unbounded; fuel counts loop iterations and fuelOut for every fuel value
means the C loop never exits. -/
def walkAux (isAdb : Nat → Nat → Nat → Nat → Nat → Bool) (buf : Nat → Nat)
    (dlen vid pid serialIdx : Nat) : Nat → Nat → Nat → WalkRes × List RdEv
  | 0, _, _ => (.fuelOut, [])
  | fuel + 1, p, zmask =>
    if p < dlen then
      let length := buf p
      let type := buf (p + 1)
      let rd0 : List RdEv := [⟨p, .tag⟩, ⟨p + 1, .tag⟩]
      if type = USB_DT_INTERFACE then
        if length ≠ USB_DT_INTERFACE_SIZE then (.nomatch, rd0)
        else
          let rd1 : List RdEv := rd0 ++ [⟨p + 4, .iface⟩, ⟨p + 5, .iface⟩, ⟨p + 6, .iface⟩, ⟨p + 7, .iface⟩]
          if buf (p + 4) = 2 ∧ isAdb vid pid (buf (p + 5)) (buf (p + 6)) (buf (p + 7)) then
            let so := scan_endpoints buf dlen p zmask serialIdx
            match so.1 with
            | .abort => (.nomatch, rd1 ++ so.2)
            | .found m => (.found m, rd1 ++ so.2)
            | .cont pA =>
              let rest := walkAux isAdb buf dlen vid pid serialIdx fuel pA zmask
              (rest.1, rd1 ++ so.2 ++ rest.2)
          else
            let rest := walkAux isAdb buf dlen vid pid serialIdx fuel (p + length) zmask
            (rest.1, rd1 ++ rest.2)
      else
        let rest := walkAux isAdb buf dlen vid pid serialIdx fuel (p + length) zmask
        (rest.1, rd0 ++ rest.2)
    else (.nomatch, [])

/-- The per-device parse of find_usb_device, lines 157-289: reject
buffers shorter than USB_DT_DEVICE_SIZE + USB_DT_CONFIG_SIZE before any
buffer read, validate the device header tags, extract idVendor and
idProduct, validate the config header tags, then walk the remaining
records from offset 27.  is_adb_interface is the external match policy. -/
def parse_descriptors (isAdb : Nat → Nat → Nat → Nat → Nat → Bool)
    (buf : Nat → Nat) (dlen fuel : Nat) : WalkRes × List RdEv :=
  if dlen < USB_DT_DEVICE_SIZE + USB_DT_CONFIG_SIZE then (.nomatch, [])
  else
    let rdD : List RdEv := [⟨0, .hdr⟩, ⟨1, .hdr⟩]
    if buf 0 ≠ USB_DT_DEVICE_SIZE ∨ buf 1 ≠ USB_DT_DEVICE then (.nomatch, rdD)
    else
      let vid := readLE16 buf 8
      let pid := readLE16 buf 10
      let rdV := rdD ++ [⟨8, .hdr⟩, ⟨9, .hdr⟩, ⟨10, .hdr⟩, ⟨11, .hdr⟩]
      if buf 18 ≠ USB_DT_CONFIG_SIZE ∨ buf 19 ≠ USB_DT_CONFIG then
        (.nomatch, rdV ++ [⟨18, .hdr⟩, ⟨19, .hdr⟩])
      else
        let rdC := rdV ++ [⟨18, .hdr⟩, ⟨19, .hdr⟩, ⟨16, .hdr⟩]
        let w := walkAux isAdb buf dlen vid pid (buf 16) fuel 27 0
        (w.1, rdC ++ w.2)

/-- A match policy accepting everything, standing in for the external
is_adb_interface collaborator in concrete evaluations. -/
def is_adb_any : Nat → Nat → Nat → Nat → Nat → Bool := fun _ _ _ _ _ => true

/-- A 28-byte buffer: a valid 18-byte device header, a valid 9-byte
config header, and a single trailing byte 9.  The record walk reads the
type byte of the truncated trailing record at offset 28 = desclength. -/
def bufShortTail : Nat → Nat := fun i =>
  ([18, 1, 0, 0, 0, 0, 0, 0, 0, 0, 0, 0, 0, 0, 0, 0, 0, 0,
    9, 2, 0, 0, 0, 0, 0, 0, 0, 9] : List Nat).getD i 0

/-- A 29-byte buffer: valid device and config headers followed by a
record declaring length 0 with a non-interface type 3.  The C walk does
bufptr += 0 on it and spins forever. -/
def bufZeroRecord : Nat → Nat := fun i =>
  ([18, 1, 0, 0, 0, 0, 0, 0, 0, 0, 0, 0, 0, 0, 0, 0, 0, 0,
    9, 2, 0, 0, 0, 0, 0, 0, 0, 0, 3] : List Nat).getD i 0

/-- A 50-byte buffer with a matching interface: device header (iSerialNumber 3),
config header, an interface record (bInterfaceNumber 1, two endpoints,
bInterfaceProtocol the parameter proto), endpoint 0x81 then endpoint 0x02,
both bulk, both with wMaxPacketSize mps. -/
def mkAdbBuf (proto mps : Nat) : Nat → Nat := fun i =>
  if i = 0 then 18 else if i = 1 then 1 else
  if i = 16 then 3 else
  if i = 18 then 9 else if i = 19 then 2 else
  if i = 27 then 9 else if i = 28 then 4 else if i = 29 then 1 else
  if i = 31 then 2 else if i = 32 then 255 else if i = 33 then 66 else
  if i = 34 then proto else
  if i = 36 then 7 else if i = 37 then 5 else if i = 38 then 129 else
  if i = 39 then 2 else if i = 40 then mps % 256 else if i = 41 then mps / 256 else
  if i = 43 then 7 else if i = 44 then 5 else if i = 45 then 2 else
  if i = 46 then 2 else if i = 47 then mps % 256 else if i = 48 then mps / 256 else 0

/-! Handle registry and transfer engine (struct usb_handle and the
functions operating on it).  Kernel requests are returned as a KAct
trace; the behaviour of the kernel and of the other threads while a lock
is released is supplied through oracle / event lists. -/

/-- struct usb_handle (lines 54-82).  The two usbdevfs_urb members are
represented by their status / actual_length fields; cv, mutex and
reaper_thread carry no state the claims depend on. -/
structure UsbHandle where
  path : String
  fd : Int
  ep_in : Nat
  ep_out : Nat
  zero_mask : Nat
  writeable : Bool
  urb_in_status : Int
  urb_out_status : Int
  urb_in_actual : Int
  urb_out_actual : Int
  urb_in_busy : Bool
  urb_out_busy : Bool
  dead : Bool
  mark : Bool
deriving DecidableEq

/-- Kernel requests issued by an operation: USBDEVFS_SUBMITURB with the
endpoint and buffer length, a cv wait bounded by the given number of
seconds, a blocking USBDEVFS_REAPURB, USBDEVFS_DISCARDURB. -/
inductive KAct
| submit (endpoint : Nat) (buflen : Int)
| waitCv (secs : Nat)
| reap
| discard
deriving DecidableEq

/-- Result of a bulk operation: the returned actual_length, or -1 with
the given errno, or a thread that is still blocked when the supplied
event list runs out. -/
inductive WRes
| ok (n : Int)
| err (e : Nat)
| hang
deriving DecidableEq

/-- usb_kick (lines 457-488): under the handle lock, if not already dead
mark dead; for a writeable handle signal the reaper and discard both
urbs (kernel side), force both urb statuses to -ENODEV, clear both busy
flags and wake all waiters; for a read-only handle call
unregister_usb_transport.  The returned Bool reports whether the
unregister_usb_transport disconnect notification was invoked. -/
def usb_kick (h : UsbHandle) : UsbHandle × Bool :=
  if ¬h.dead then
    let h1 : UsbHandle := { h with dead := true }
    if h1.writeable then
      ({ h1 with urb_in_status := -(ENODEV : Int), urb_out_status := -(ENODEV : Int),
                 urb_in_busy := false, urb_out_busy := false }, false)
    else (h1, true)
  else (h, false)

/-- One entry of kick_disconnected_devices (lines 99-109): a handle whose
mark is not set is kicked, otherwise its mark is cleared. -/
def kick_step (h : UsbHandle) : UsbHandle × Bool :=
  if ¬h.mark then usb_kick h else ({ h with mark := false }, false)

/-- kick_disconnected_devices (lines 99-109): under the registry lock,
apply kick_step to every handle; each result pairs the new handle state
with whether the disconnect notification fired for it. -/
def kick_disconnected_devices (hs : List UsbHandle) : List (UsbHandle × Bool) :=
  hs.map kick_step

/-- State another thread may have left in the handle when a cv wait in
usb_bulk_write returns and the lock is reacquired: the reaper clears
urb_out_busy after the kernel filled status / actual_length, usb_kick
sets dead (and, being the only writer of dead, also clears the busy
flag and forces the status in the same critical section). -/
structure WriteEvent where
  timedOut : Bool
  deadAfter : Bool
  outBusyAfter : Bool
  outStatusAfter : Int
  outActualAfter : Int
deriving DecidableEq

/-- The wait loop of usb_bulk_write (lines 318-332): each iteration waits
on the cv with deadline now + 5s; on timeout or on the handle being dead
fail with ETIMEDOUT (the submitted urb is not discarded); otherwise if
urb_out_busy was cleared return the urb status / actual_length; else
wait again. -/
def write_wait (h : UsbHandle) : List WriteEvent → WRes × UsbHandle × List KAct
  | [] => (.hang, h, [])
  | ev :: rest =>
    let h2 : UsbHandle := { h with
      dead := ev.deadAfter
      urb_out_busy := ev.outBusyAfter
      urb_out_status := ev.outStatusAfter
      urb_out_actual := ev.outActualAfter }
    if ev.timedOut ∨ h2.dead then (.err ETIMEDOUT, h2, [.waitCv 5])
    else if ¬h2.urb_out_busy then
      if h2.urb_out_status ≠ 0 then (.err (-h2.urb_out_status).toNat, h2, [.waitCv 5])
      else (.ok h2.urb_out_actual, h2, [.waitCv 5])
    else
      let r := write_wait h2 rest
      (r.1, r.2.1, .waitCv 5 :: r.2.2)

/-- usb_bulk_write (lines 296-333): fill in urb_out, fail with EINVAL if
the handle is dead (before any kernel request), submit the urb (submitErr
gives the ioctl outcome), mark the out slot busy and enter the bounded
wait loop. -/
def usb_bulk_write (h : UsbHandle) (len : Int) (submitErr : Option Nat)
    (events : List WriteEvent) : WRes × UsbHandle × List KAct :=
  let h0 : UsbHandle := { h with urb_out_status := -1, urb_out_actual := 0 }
  if h0.dead then (.err EINVAL, h0, [])
  else
    match submitErr with
    | some e => (.err e, h0, [.submit h0.ep_out len])
    | none =>
      let h1 : UsbHandle := { h0 with urb_out_busy := true }
      let r := write_wait h1 events
      (r.1, r.2.1, .submit h0.ep_out len :: r.2.2)

/-- Which of the two urbs of this handle a REAPURB returned. -/
inductive ReapOut
| inUrb
| outUrb
deriving DecidableEq

/-- Outcome of one blocking REAPURB call of usb_bulk_read, together with
the handle state other threads may have produced while the lock was
released (usb_kick can set dead, force statuses, clear busy flags). -/
structure ReapEvent where
  res : Int
  savedErrno : Nat
  out : ReapOut
  deadAfter : Bool
  inBusyAfter : Bool
  outBusyAfter : Bool
  inStatusAfter : Int
  inActualAfter : Int
  outStatusAfter : Int
  outActualAfter : Int
deriving DecidableEq

/-- The reap loop of usb_bulk_read (lines 357-398): record the reaper
thread, release the lock, block in REAPURB, reacquire the lock; if the
handle died fail with EINVAL; on an interrupted call (EINTR) reap again
without resubmitting; on another error return it; a completion of the
out urb clears its busy flag, wakes the writer and reaps again; a
completion of the in urb clears its busy flag and returns the status /
actual_length. -/
def reap_loop (h : UsbHandle) : List ReapEvent → WRes × UsbHandle × List KAct
  | [] => (.hang, h, [])
  | ev :: rest =>
    let h2 : UsbHandle := { h with
      dead := ev.deadAfter
      urb_in_busy := ev.inBusyAfter
      urb_out_busy := ev.outBusyAfter
      urb_in_status := ev.inStatusAfter
      urb_in_actual := ev.inActualAfter
      urb_out_status := ev.outStatusAfter
      urb_out_actual := ev.outActualAfter }
    if h2.dead then (.err EINVAL, h2, [.reap])
    else if ev.res < 0 then
      if ev.savedErrno = EINTR then
        let r := reap_loop h2 rest
        (r.1, r.2.1, .reap :: r.2.2)
      else (.err ev.savedErrno, h2, [.reap])
    else
      match ev.out with
      | .inUrb =>
        let h3 : UsbHandle := { h2 with urb_in_busy := false }
        if h3.urb_in_status ≠ 0 then (.err (-h3.urb_in_status).toNat, h3, [.reap])
        else (.ok h3.urb_in_actual, h3, [.reap])
      | .outUrb =>
        let h3 : UsbHandle := { h2 with urb_out_busy := false }
        let r := reap_loop h3 rest
        (r.1, r.2.1, .reap :: r.2.2)

/-- usb_bulk_read (lines 335-399): fill in urb_in, fail with EINVAL if
the handle is dead (before any kernel request), submit the urb, mark the
in slot busy and enter the reap loop. -/
def usb_bulk_read (h : UsbHandle) (len : Int) (submitErr : Option Nat)
    (events : List ReapEvent) : WRes × UsbHandle × List KAct :=
  let h0 : UsbHandle := { h with urb_in_status := -1, urb_in_actual := 0 }
  if h0.dead then (.err EINVAL, h0, [])
  else
    match submitErr with
    | some e => (.err e, h0, [.submit h0.ep_in len])
    | none =>
      let h1 : UsbHandle := { h0 with urb_in_busy := true }
      let r := reap_loop h1 events
      (r.1, r.2.1, .submit h0.ep_in len :: r.2.2)

/-- usb_write (lines 402-421): one bulk write of the whole buffer; any
result different from len is a hard error (-1); then, if zero_mask is
non-zero and len has no bits of zero_mask, one additional zero-length
bulk write whose result is returned.  The two bulk writes are abstracted
by their results n1 and n2; the second component lists the buffer
lengths of the bulk writes actually issued, in order. -/
def usb_write (h : UsbHandle) (len : Nat) (n1 n2 : Int) : Int × List Nat :=
  if n1 ≠ (len : Int) then (-1, [len])
  else if h.zero_mask ≠ 0 ∧ len &&& h.zero_mask = 0 then (n2, [len, 0])
  else (0, [len])

/-- Result of usb_read: 0 on success, -1 on a hard error, noMore when the
supplied per-attempt oracle ran out while bytes were still owed. -/
inductive ReadRes
| ok
| fail
| noMore
deriving DecidableEq

/-- usb_read (lines 423-455): while len > 0, bulk read the remaining
length; the oracle gives each attempt as the pair (return value, errno
after the call).  A full transfer ends the loop; on a shorter result
with errno ETIMEDOUT and fd different from -1, advance by the
transferred count when positive and retry; anything else fails the whole
call.  Returns (result, requested length of each attempt in order, total
bytes accounted as transferred). -/
def usb_read (h : UsbHandle) : Nat → List (Int × Nat) → ReadRes × List Nat × Nat
  | 0, _ => (.ok, [], 0)
  | _ + 1, [] => (.noMore, [], 0)
  | len + 1, (n, e) :: rest =>
    if n = ((len + 1 : Nat) : Int) then (.ok, [len + 1], len + 1)
    else if e = ETIMEDOUT ∧ h.fd ≠ -1 then
      let r := usb_read h (len + 1 - n.toNat) rest
      (r.1, (len + 1) :: r.2.1, n.toNat + r.2.2)
    else (.fail, [len + 1], 0)

/-! Registration (register_device, lines 501-572). -/

/-- Outcome of opening the device node: read-write, read-only after the
read-write open failed, or no access at all. -/
inductive OpenResult
| rw
| ro
| fail
deriving DecidableEq

/-- Environment of one register_device call: the open outcome, the file
descriptor value a successful open returns, whether
USBDEVFS_CLAIMINTERFACE succeeded, and the content ReadFileToString got
from the serial file (none when the read failed). -/
structure RegEnv where
  openRes : OpenResult
  fdVal : Int
  claimOk : Bool
  serialContent : Option String
deriving DecidableEq

/-- The arguments register_device passes to register_usb_transport:
trimmed serial, the stable device path, the writable flag. -/
structure Attach where
  serial : String
  devPath : String
  writeable : Bool
deriving DecidableEq

/-- android base Trim: strip leading and trailing whitespace (external
library collaborator; defined structurally so it evaluates in the
kernel). -/
def android_base_Trim (s : String) : String :=
  ⟨((s.data.dropWhile Char.isWhitespace).reverse.dropWhile Char.isWhitespace).reverse⟩

/-- register_device (lines 501-572).  Under the registry lock, return at
once if a handle with this path exists.  Otherwise open the node
read-write, falling back to read-only (marking the handle non-writable),
abandoning registration if both fail; claim the interface when writable,
abandoning registration on failure; build the serial sysfs path from
dev_path + 4 - the source applies this pointer arithmetic
unconditionally, so a null dev_path (the scanner passes nullptr when the
stable path could not be resolved) is undefined behaviour, modelled as
the none result; read the serial best-effort (empty on failure), trim
it, append the handle to the registry and call register_usb_transport.
The some result carries the new registry and the attach notification (if
any). -/
def register_device (dev_name : String) (dev_path : Option String)
    (ep_in ep_out _ifc _serial_index zero_mask : Nat)
    (env : RegEnv) (registry : List UsbHandle) :
    Option (List UsbHandle × Option Attach) :=
  if registry.any (fun u => u.path == dev_name) then some (registry, none)
  else if env.openRes = .fail then some (registry, none)
  else
    let wr : Bool := env.openRes = OpenResult.rw
    if wr ∧ ¬env.claimOk then some (registry, none)
    else
      match dev_path with
      | none => none
      | some dp =>
        let _serial_path := "/sys/bus/usb/devices/" ++ dp.drop 4 ++ "/serial"
        let serial := android_base_Trim (match env.serialContent with
          | some s => s
          | none => "")
        let h : UsbHandle := { path := dev_name, fd := env.fdVal, ep_in := ep_in
                               ep_out := ep_out, zero_mask := zero_mask, writeable := wr
                               urb_in_status := 0, urb_out_status := 0, urb_in_actual := 0
                               urb_out_actual := 0, urb_in_busy := false, urb_out_busy := false
                               dead := false, mark := true }
        some (registry ++ [h], some ⟨serial, dp, wr⟩)

/-! Concrete sample values used by counterexamples and witnesses. -/

/-- A live writable handle. -/
def sampleLive : UsbHandle :=
  { path := "/dev/bus/usb/001/002", fd := 3, ep_in := 129, ep_out := 2,
    zero_mask := 0, writeable := true, urb_in_status := 0, urb_out_status := 0,
    urb_in_actual := 0, urb_out_actual := 0, urb_in_busy := false,
    urb_out_busy := false, dead := false, mark := true }

/-- A dead handle. -/
def sampleDead : UsbHandle := { sampleLive with dead := true }

/-- A live handle with the aproto-01 zero mask for maxPacketSize 64. -/
def sampleMask64 : UsbHandle := { sampleLive with zero_mask := 63 }

/-- A live read-only unmarked handle, as kick_disconnected_devices sees a
vanished read-only device. -/
def sampleRO : UsbHandle := { sampleLive with writeable := false, mark := false }

/-- A wait event where the 5-second cv deadline expired with the out urb
still in flight and the handle still alive. -/
def evTimeout : WriteEvent := ⟨true, false, true, -1, 0⟩

/-- A handle registered under path a, for registry examples. -/
def handleA : UsbHandle := { sampleLive with path := "a" }

/-- The environment of a registration whose read-write open (fd 3) and
interface claim succeed and whose serial file read fails. -/
def envRW : RegEnv := ⟨.rw, 3, true, none⟩

/-- The handle register_device builds for the sample device. -/
def regHandleSample : UsbHandle :=
  { path := "/dev/bus/usb/001/002", fd := 3, ep_in := 129, ep_out := 2
    zero_mask := 0, writeable := true, urb_in_status := 0, urb_out_status := 0
    urb_in_actual := 0, urb_out_actual := 0, urb_in_busy := false
    urb_out_busy := false, dead := false, mark := true }

/-! Helper lemmas. -/

/-- The companion probe never moves the cursor backwards. -/
theorem ssProbe_fst_ge (buf : Nat → Nat) (dlen p : Nat) : p ≤ (ssProbe buf dlen p).1 := by
  unfold ssProbe
  split_ifs <;> simp

/-- Every read of the companion probe is a probe-kind read strictly below
the supplied length. -/
theorem ssProbe_reads (buf : Nat → Nat) (dlen p : Nat) :
    ∀ ev ∈ (ssProbe buf dlen p).2, ev.off < dlen ∧ ev.k = RdKind.probe := by
  unfold ssProbe
  split_ifs with h1 h2 h3 <;> intro ev hev <;>
    simp only [List.mem_cons, List.mem_singleton, List.not_mem_nil] at hev
  · rcases hev with rfl | rfl | h
    · exact ⟨show p < dlen by omega, rfl⟩
    · exact ⟨show p + 1 < dlen by omega, rfl⟩
    · cases h
  · rcases hev with rfl | rfl | h
    · exact ⟨show p < dlen by omega, rfl⟩
    · exact ⟨show p + 1 < dlen by omega, rfl⟩
    · cases h
  · rcases hev with rfl | h
    · exact ⟨show p < dlen by omega, rfl⟩
    · cases h

set_option maxHeartbeats 2000000 in
/-- Every read of the endpoint scan of a matched interface record at
offset q is below the supplied length plus 7, and its endpoint and probe
reads are strictly below the supplied length. -/
theorem scan_endpoints_reads (buf : Nat → Nat) (dlen q z si : Nat) (hq : q < dlen) :
    ∀ ev ∈ (scan_endpoints buf dlen q z si).2,
      ev.off < dlen + 7 ∧ ((ev.k = RdKind.ep ∨ ev.k = RdKind.probe) → ev.off < dlen) := by
  intro ev hev
  have g1 := ssProbe_fst_ge buf dlen (q + 9 + 7)
  have r1 := ssProbe_reads buf dlen (q + 9 + 7)
  have g2 := ssProbe_fst_ge buf dlen ((ssProbe buf dlen (q + 9 + 7)).1 + 7)
  have r2 := ssProbe_reads buf dlen ((ssProbe buf dlen (q + 9 + 7)).1 + 7)
  have key : ev ∈ (ssProbe buf dlen (q + 9 + 7)).2 ∨
      ev ∈ (ssProbe buf dlen ((ssProbe buf dlen (q + 9 + 7)).1 + 7)).2 ∨
      (¬dlen < (ssProbe buf dlen ((ssProbe buf dlen (q + 9 + 7)).1 + 7)).1 ∧
        (ev = ⟨q + 9, .ep⟩ ∨ ev = ⟨q + 9 + 1, .ep⟩ ∨ ev = ⟨q + 9 + 2, .ep⟩ ∨
         ev = ⟨q + 9 + 3, .ep⟩ ∨ ev = ⟨q + 9 + 4, .ep⟩ ∨ ev = ⟨q + 9 + 5, .ep⟩ ∨
         ev = ⟨(ssProbe buf dlen (q + 9 + 7)).1, .ep⟩ ∨
         ev = ⟨(ssProbe buf dlen (q + 9 + 7)).1 + 1, .ep⟩ ∨
         ev = ⟨(ssProbe buf dlen (q + 9 + 7)).1 + 2, .ep⟩ ∨
         ev = ⟨(ssProbe buf dlen (q + 9 + 7)).1 + 3, .ep⟩ ∨
         ev = ⟨q + 7, .iface⟩ ∨ ev = ⟨q + 2, .iface⟩)) := by
    simp only [scan_endpoints, USB_DT_INTERFACE_SIZE, USB_DT_ENDPOINT_SIZE,
      USB_DT_ENDPOINT, USB_ENDPOINT_XFER_BULK] at hev
    split_ifs at hev <;>
      simp only [List.mem_append, List.mem_cons, List.not_mem_nil, or_false] at hev <;>
      tauto
  rcases key with hm | hm | ⟨hpa, hA⟩
  · obtain ⟨ho, hk⟩ := r1 ev hm
    exact ⟨by omega, fun _ => ho⟩
  · obtain ⟨ho, hk⟩ := r2 ev hm
    exact ⟨by omega, fun _ => ho⟩
  · rcases hA with rfl | rfl | rfl | rfl | rfl | rfl | rfl | rfl | rfl | rfl | rfl | rfl <;>
      dsimp only <;>
      refine ⟨by omega, ?_⟩ <;>
      first
      | (rintro (hk | hk) <;> cases hk
         done)
      | (intro hk
         omega)

/-- A read event whose kind is neither ep nor probe satisfies the full
read-bound conjunction as soon as its offset is below dlen + 7. -/
theorem nonep_ok (a dlen : Nat) (k : RdKind) (h1 : a < dlen + 7)
    (h2 : k ≠ RdKind.ep) (h3 : k ≠ RdKind.probe) :
    (⟨a, k⟩ : RdEv).off < dlen + 7 ∧
      (((⟨a, k⟩ : RdEv).k = RdKind.ep ∨ (⟨a, k⟩ : RdEv).k = RdKind.probe) →
        (⟨a, k⟩ : RdEv).off < dlen) := by
  refine ⟨h1, ?_⟩
  intro hk
  rcases hk with hk | hk
  · exact absurd hk h2
  · exact absurd hk h3

/-- Every read of the record walk is below the supplied length plus 7,
and its endpoint and probe reads are strictly below the supplied
length. -/
theorem walkAux_reads (isAdb : Nat → Nat → Nat → Nat → Nat → Bool) (buf : Nat → Nat)
    (dlen vid pid si : Nat) :
    ∀ fuel p z, ∀ ev ∈ (walkAux isAdb buf dlen vid pid si fuel p z).2,
      ev.off < dlen + 7 ∧ ((ev.k = RdKind.ep ∨ ev.k = RdKind.probe) → ev.off < dlen) := by
  intro fuel
  induction fuel with
  | zero =>
    intro p z ev hev
    simp only [walkAux, List.not_mem_nil] at hev
  | succ n ih =>
    intro p z ev hev
    simp only [walkAux] at hev
    by_cases hp : p < dlen
    · rw [if_pos hp] at hev
      by_cases ht : buf (p + 1) = USB_DT_INTERFACE
      · rw [if_pos ht] at hev
        by_cases hl : buf p ≠ USB_DT_INTERFACE_SIZE
        · rw [if_pos hl] at hev
          simp only [List.mem_cons, List.not_mem_nil, or_false] at hev
          rcases hev with rfl | rfl
          · exact nonep_ok p dlen .tag (by omega) (by decide) (by decide)
          · exact nonep_ok (p + 1) dlen .tag (by omega) (by decide) (by decide)
        · rw [if_neg hl] at hev
          by_cases hm2 : buf (p + 4) = 2 ∧
              isAdb vid pid (buf (p + 5)) (buf (p + 6)) (buf (p + 7)) = true
          · rw [if_pos hm2] at hev
            cases hso : (scan_endpoints buf dlen p z si).1 with
            | abort =>
              rw [hso] at hev
              simp only [List.mem_append, List.mem_cons, List.not_mem_nil, or_false] at hev
              rcases hev with ((rfl | rfl) | rfl | rfl | rfl | rfl) | hm
              · exact nonep_ok p dlen .tag (by omega) (by decide) (by decide)
              · exact nonep_ok (p + 1) dlen .tag (by omega) (by decide) (by decide)
              · exact nonep_ok (p + 4) dlen .iface (by omega) (by decide) (by decide)
              · exact nonep_ok (p + 5) dlen .iface (by omega) (by decide) (by decide)
              · exact nonep_ok (p + 6) dlen .iface (by omega) (by decide) (by decide)
              · exact nonep_ok (p + 7) dlen .iface (by omega) (by decide) (by decide)
              · exact scan_endpoints_reads buf dlen p z si hp ev hm
            | cont pA =>
              rw [hso] at hev
              simp only [List.mem_append, List.mem_cons, List.not_mem_nil, or_false] at hev
              rcases hev with (((rfl | rfl) | rfl | rfl | rfl | rfl) | hm) | hr
              · exact nonep_ok p dlen .tag (by omega) (by decide) (by decide)
              · exact nonep_ok (p + 1) dlen .tag (by omega) (by decide) (by decide)
              · exact nonep_ok (p + 4) dlen .iface (by omega) (by decide) (by decide)
              · exact nonep_ok (p + 5) dlen .iface (by omega) (by decide) (by decide)
              · exact nonep_ok (p + 6) dlen .iface (by omega) (by decide) (by decide)
              · exact nonep_ok (p + 7) dlen .iface (by omega) (by decide) (by decide)
              · exact scan_endpoints_reads buf dlen p z si hp ev hm
              · exact ih pA z ev hr
            | found m =>
              rw [hso] at hev
              simp only [List.mem_append, List.mem_cons, List.not_mem_nil, or_false] at hev
              rcases hev with ((rfl | rfl) | rfl | rfl | rfl | rfl) | hm
              · exact nonep_ok p dlen .tag (by omega) (by decide) (by decide)
              · exact nonep_ok (p + 1) dlen .tag (by omega) (by decide) (by decide)
              · exact nonep_ok (p + 4) dlen .iface (by omega) (by decide) (by decide)
              · exact nonep_ok (p + 5) dlen .iface (by omega) (by decide) (by decide)
              · exact nonep_ok (p + 6) dlen .iface (by omega) (by decide) (by decide)
              · exact nonep_ok (p + 7) dlen .iface (by omega) (by decide) (by decide)
              · exact scan_endpoints_reads buf dlen p z si hp ev hm
          · rw [if_neg hm2] at hev
            simp only [List.mem_append, List.mem_cons, List.not_mem_nil, or_false] at hev
            rcases hev with ((rfl | rfl) | rfl | rfl | rfl | rfl) | hr
            · exact nonep_ok p dlen .tag (by omega) (by decide) (by decide)
            · exact nonep_ok (p + 1) dlen .tag (by omega) (by decide) (by decide)
            · exact nonep_ok (p + 4) dlen .iface (by omega) (by decide) (by decide)
            · exact nonep_ok (p + 5) dlen .iface (by omega) (by decide) (by decide)
            · exact nonep_ok (p + 6) dlen .iface (by omega) (by decide) (by decide)
            · exact nonep_ok (p + 7) dlen .iface (by omega) (by decide) (by decide)
            · exact ih (p + buf p) z ev hr
      · rw [if_neg ht] at hev
        simp only [List.mem_append, List.mem_cons, List.not_mem_nil, or_false] at hev
        rcases hev with (rfl | rfl) | hr
        · exact nonep_ok p dlen .tag (by omega) (by decide) (by decide)
        · exact nonep_ok (p + 1) dlen .tag (by omega) (by decide) (by decide)
        · exact ih (p + buf p) z ev hr
    · rw [if_neg hp] at hev
      simp only [List.not_mem_nil] at hev

/-- On the zero-length-record buffer the walk stays at offset 27 whatever
fuel it is given: every iteration reads the same record and advances the
cursor by its declared length 0. -/
theorem bufZeroRecord_loop (vid pid si z : Nat) :
    ∀ fuel, (walkAux is_adb_any bufZeroRecord 29 vid pid si fuel 27 z).1 = WalkRes.fuelOut := by
  intro fuel
  induction fuel with
  | zero => rfl
  | succ n ih =>
    have h27 : bufZeroRecord 27 = 0 := rfl
    have h28 : bufZeroRecord (27 + 1) = 3 := rfl
    simp only [walkAux, h27, h28, USB_DT_INTERFACE]
    norm_num
    exact ih

/-! Claim theorems. -/

/-- C2 (code_bug evidence): on a descriptor buffer whose headers are
valid and whose first record declares length 0 with a non-interface
type, the record walk never terminates - the parse reports fuel
exhaustion for every fuel bound, because the cursor never advances.  The
claim (and the spec) says a malformed record, a declared length of zero
included, aborts the scan of that interface; the code instead loops
forever on this input. -/
theorem c2_zero_length_record_diverges (fuel : Nat) :
    (parse_descriptors is_adb_any bufZeroRecord 29 fuel).1 = WalkRes.fuelOut := by
  have h0 : bufZeroRecord 0 = 18 := rfl
  have h1 : bufZeroRecord 1 = 1 := rfl
  have h18 : bufZeroRecord 18 = 9 := rfl
  have h19 : bufZeroRecord 19 = 2 := rfl
  have hw := bufZeroRecord_loop (readLE16 bufZeroRecord 8) (readLE16 bufZeroRecord 10)
    (bufZeroRecord 16) 0 fuel
  simp only [parse_descriptors, h0, h1, h18, h19, USB_DT_DEVICE_SIZE, USB_DT_CONFIG_SIZE,
    USB_DT_DEVICE, USB_DT_CONFIG]
  norm_num
  exact hw

/-- C1 counterexample: on a 28-byte buffer (valid device and config
headers, then a single byte) supplied with length 28, the record walk
reads the type byte of the truncated trailing record at offset 28, which
is not strictly below the supplied length - refuting the claim that the
record walk only reads bytes at offsets strictly below the supplied
length. -/
theorem c1_read_at_length :
    (⟨28, RdKind.tag⟩ : RdEv) ∈ (parse_descriptors is_adb_any bufShortTail 28 2).2 ∧
      ¬(28 < 28) := by decide

/-- C1 amended: buffers shorter than the minimum device+config size are
rejected with no match and no buffer read at all; every endpoint-record
and companion-probe read is at an offset strictly below the supplied
length; the remaining reads (record tag bytes and interface-record
fields) can overrun a truncated trailing record by at most 7 bytes, so
every read is at an offset strictly below the supplied length plus 7. -/
theorem c1_parser_read_bounds (isAdb : Nat → Nat → Nat → Nat → Nat → Bool)
    (buf : Nat → Nat) (dlen fuel : Nat) :
    (dlen < USB_DT_DEVICE_SIZE + USB_DT_CONFIG_SIZE →
      parse_descriptors isAdb buf dlen fuel = (WalkRes.nomatch, [])) ∧
    (∀ ev ∈ (parse_descriptors isAdb buf dlen fuel).2, ev.off < dlen + 7) ∧
    (∀ ev ∈ (parse_descriptors isAdb buf dlen fuel).2,
      (ev.k = RdKind.ep ∨ ev.k = RdKind.probe) → ev.off < dlen) := by
  have hmain : ∀ ev ∈ (parse_descriptors isAdb buf dlen fuel).2,
      ev.off < dlen + 7 ∧ ((ev.k = RdKind.ep ∨ ev.k = RdKind.probe) → ev.off < dlen) := by
    intro ev hev
    by_cases hshort : dlen < USB_DT_DEVICE_SIZE + USB_DT_CONFIG_SIZE
    · simp [parse_descriptors, hshort] at hev
    · have h27 : 27 ≤ dlen := by
        simp only [USB_DT_DEVICE_SIZE, USB_DT_CONFIG_SIZE] at hshort
        omega
      simp only [parse_descriptors] at hev
      rw [if_neg hshort] at hev
      split_ifs at hev <;>
        simp only [List.mem_append, List.mem_cons, List.not_mem_nil, or_false] at hev
      · rcases hev with rfl | rfl
        · exact nonep_ok 0 dlen .hdr (by omega) (by decide) (by decide)
        · exact nonep_ok 1 dlen .hdr (by omega) (by decide) (by decide)
      · rcases hev with ((rfl | rfl) | rfl | rfl | rfl | rfl) | rfl | rfl
        · exact nonep_ok 0 dlen .hdr (by omega) (by decide) (by decide)
        · exact nonep_ok 1 dlen .hdr (by omega) (by decide) (by decide)
        · exact nonep_ok 8 dlen .hdr (by omega) (by decide) (by decide)
        · exact nonep_ok 9 dlen .hdr (by omega) (by decide) (by decide)
        · exact nonep_ok 10 dlen .hdr (by omega) (by decide) (by decide)
        · exact nonep_ok 11 dlen .hdr (by omega) (by decide) (by decide)
        · exact nonep_ok 18 dlen .hdr (by omega) (by decide) (by decide)
        · exact nonep_ok 19 dlen .hdr (by omega) (by decide) (by decide)
      · rcases hev with (((rfl | rfl) | rfl | rfl | rfl | rfl) | rfl | rfl | rfl) | hw
        · exact nonep_ok 0 dlen .hdr (by omega) (by decide) (by decide)
        · exact nonep_ok 1 dlen .hdr (by omega) (by decide) (by decide)
        · exact nonep_ok 8 dlen .hdr (by omega) (by decide) (by decide)
        · exact nonep_ok 9 dlen .hdr (by omega) (by decide) (by decide)
        · exact nonep_ok 10 dlen .hdr (by omega) (by decide) (by decide)
        · exact nonep_ok 11 dlen .hdr (by omega) (by decide) (by decide)
        · exact nonep_ok 18 dlen .hdr (by omega) (by decide) (by decide)
        · exact nonep_ok 19 dlen .hdr (by omega) (by decide) (by decide)
        · exact nonep_ok 16 dlen .hdr (by omega) (by decide) (by decide)
        · exact walkAux_reads isAdb buf dlen (readLE16 buf 8) (readLE16 buf 10) (buf 16)
            fuel 27 0 ev hw
  exact ⟨fun hshort => by simp [parse_descriptors, hshort],
    fun ev hev => (hmain ev hev).1, fun ev hev => (hmain ev hev).2⟩

/-- C1 witness: the amended theorem applied to the 10-byte truncation of
the sample buffer (rejected with no reads) and to the read event of the
counterexample buffer (bounded by the supplied length plus 7). -/
theorem c1_parser_read_bounds_witness :
    parse_descriptors is_adb_any bufShortTail 10 2 = (WalkRes.nomatch, []) ∧ (28 : Nat) < 28 + 7 :=
  ⟨(c1_parser_read_bounds is_adb_any bufShortTail 10 2).1 (by decide),
   (c1_parser_read_bounds is_adb_any bufShortTail 28 2).2.1 ⟨28, RdKind.tag⟩ (by decide)⟩

/-- C3: one kick_disconnected_devices call applies kick_step to every
handle of the registry; a live unmarked handle becomes dead and the
disconnect notification fires exactly for read-only handles; an unmarked
handle that is already dead is left completely unchanged with no second
notification; a marked handle only has its mark cleared; dead is a
one-way transition. -/
theorem c3_kick_disconnected_spec (hs : List UsbHandle) (h : UsbHandle) (hmem : h ∈ hs) :
    kick_step h ∈ kick_disconnected_devices hs ∧
    (h.mark = false ∧ h.dead = false →
      (kick_step h).1.dead = true ∧ ((kick_step h).2 = true ↔ h.writeable = false)) ∧
    (h.mark = false ∧ h.dead = true → kick_step h = (h, false)) ∧
    (h.mark = true → kick_step h = ({ h with mark := false }, false)) ∧
    (h.dead = true → (kick_step h).1.dead = true) := by
  refine ⟨?_, ?_, ?_, ?_, ?_⟩
  · simp only [kick_disconnected_devices]
    exact List.mem_map.mpr ⟨h, hmem, rfl⟩
  · rintro ⟨hm, hd⟩
    cases hw : h.writeable <;> simp [kick_step, usb_kick, hm, hd, hw]
  · rintro ⟨hm, hd⟩
    simp [kick_step, usb_kick, hm, hd]
  · intro hm
    simp [kick_step, hm]
  · intro hd
    cases hm : h.mark <;> simp [kick_step, usb_kick, hm, hd]

/-- C3 witness: kicking a registry holding one live unmarked read-only
handle marks it dead and fires its disconnect notification. -/
theorem c3_kick_disconnected_spec_witness :
    kick_step sampleRO ∈ kick_disconnected_devices [sampleRO] ∧
      (kick_step sampleRO).1.dead = true ∧
      ((kick_step sampleRO).2 = true ↔ sampleRO.writeable = false) :=
  ⟨(c3_kick_disconnected_spec [sampleRO] sampleRO (by decide)).1,
   (c3_kick_disconnected_spec [sampleRO] sampleRO (by decide)).2.1 (by decide)⟩

/-- C4: a bulk write on a live writable handle whose submission succeeds
issues exactly one submit followed by one cv wait with the 5-second
deadline; when that wait times out or finds the handle dead the call
returns the ETIMEDOUT error with no resubmission and no discard request,
and the handle it leaves behind is one that a later usb_kick still
cleans up (dead with the out slot no longer busy).  The hypothesis hk
records that the only writer of the dead flag is usb_kick, which clears
the out-busy flag in the same critical section. -/
theorem c4_bulk_write_timeout (h : UsbHandle) (len : Int) (ev : WriteEvent)
    (rest : List WriteEvent) (halive : h.dead = false) (hw : h.writeable = true)
    (ht : ev.timedOut = true ∨ ev.deadAfter = true)
    (hk : ev.deadAfter = true → ev.outBusyAfter = false) :
    (usb_bulk_write h len none (ev :: rest)).1 = WRes.err ETIMEDOUT ∧
    (usb_bulk_write h len none (ev :: rest)).2.2 =
      [KAct.submit h.ep_out len, KAct.waitCv 5] ∧
    (usb_kick (usb_bulk_write h len none (ev :: rest)).2.1).1.dead = true ∧
    (usb_kick (usb_bulk_write h len none (ev :: rest)).2.1).1.urb_out_busy = false := by
  cases hda : ev.deadAfter
  · have htt : ev.timedOut = true := by
      rcases ht with ht | ht
      · exact ht
      · rw [hda] at ht
        cases ht
    simp [usb_bulk_write, write_wait, halive, htt, hda, usb_kick, hw]
  · have hob := hk hda
    simp [usb_bulk_write, write_wait, halive, hda, hob, usb_kick]

/-- C4 witness: the theorem at a live writable handle and a timed-out
first wait. -/
theorem c4_bulk_write_timeout_witness :
    (usb_bulk_write sampleLive 100 none [evTimeout]).1 = WRes.err ETIMEDOUT ∧
    (usb_bulk_write sampleLive 100 none [evTimeout]).2.2 =
      [KAct.submit sampleLive.ep_out 100, KAct.waitCv 5] ∧
    (usb_kick (usb_bulk_write sampleLive 100 none [evTimeout]).2.1).1.dead = true ∧
    (usb_kick (usb_bulk_write sampleLive 100 none [evTimeout]).2.1).1.urb_out_busy = false :=
  c4_bulk_write_timeout sampleLive 100 evTimeout [] rfl rfl (Or.inl rfl) (by decide)

/-- usb_read only reports success when the bytes accounted as
transferred cover the whole requested length. -/
theorem usb_read_ok_transferred (h : UsbHandle) :
    ∀ (oracle : List (Int × Nat)) (len : Nat),
      (usb_read h len oracle).1 = ReadRes.ok → len ≤ (usb_read h len oracle).2.2 := by
  intro oracle
  induction oracle with
  | nil =>
    intro len hok
    cases len with
    | zero => simp [usb_read]
    | succ m => simp [usb_read] at hok
  | cons a rest ih =>
    intro len hok
    cases len with
    | zero => simp [usb_read]
    | succ m =>
      obtain ⟨n, e⟩ := a
      simp only [usb_read] at hok ⊢
      split_ifs at hok ⊢ with h1 h2
      · dsimp only at hok ⊢
        omega
      · dsimp only at hok ⊢
        have := ih (m + 1 - n.toNat) hok
        omega

/-- C5 counterexample: on a 100-byte stream read whose first bulk-read
attempt fails with ETIMEDOUT having transferred nothing (return -1), the
code retries the full remaining 100 bytes and the call succeeds -
refuting the claim that a timeout with no partial progress fails the
whole call (and that a retry happens exactly when some bytes were
transferred). -/
theorem c5_timeout_no_progress_retries :
    usb_read sampleLive 100 [((-1 : Int), 110), ((100 : Int), 0)] =
      (ReadRes.ok, [100, 100], 100) := by decide

/-- C5 amended: a full-length bulk-read result ends the call with
success; on any shorter result with errno ETIMEDOUT (whether or not
progress was made) the loop advances by the transferred count when
positive and retries, so only the remainder is re-requested; a shorter
result with any other errno fails the whole call; every attempt requests
exactly the current remainder; and success requires the entire requested
length to have been accounted as transferred. -/
theorem c5_read_retry_spec (h : UsbHandle) (len : Nat) (n : Int) (e : Nat)
    (rest : List (Int × Nat)) (hlen : 0 < len) (hfd : h.fd ≠ -1) :
    (n = (len : Int) → usb_read h len ((n, e) :: rest) = (ReadRes.ok, [len], len)) ∧
    (n ≠ (len : Int) → e = ETIMEDOUT →
      usb_read h len ((n, e) :: rest) =
        ((usb_read h (len - n.toNat) rest).1,
          len :: (usb_read h (len - n.toNat) rest).2.1,
          n.toNat + (usb_read h (len - n.toNat) rest).2.2)) ∧
    (n ≠ (len : Int) → e ≠ ETIMEDOUT →
      usb_read h len ((n, e) :: rest) = (ReadRes.fail, [len], 0)) ∧
    (∀ len2, 0 < len2 → ∀ (n2 : Int) (e2 : Nat) rest2,
      ∃ t, (usb_read h len2 ((n2, e2) :: rest2)).2.1 = len2 :: t) ∧
    (∀ len2 oracle2, (usb_read h len2 oracle2).1 = ReadRes.ok →
      len2 ≤ (usb_read h len2 oracle2).2.2) := by
  obtain ⟨m, rfl⟩ : ∃ m, len = m + 1 := ⟨len - 1, by omega⟩
  refine ⟨?_, ?_, ?_, ?_, ?_⟩
  · intro hn
    simp only [usb_read]
    rw [if_pos hn]
  · intro hn he
    simp only [usb_read]
    rw [if_neg hn, if_pos (show e = ETIMEDOUT ∧ h.fd ≠ -1 from ⟨he, hfd⟩)]
  · intro hn he
    simp only [usb_read]
    rw [if_neg hn, if_neg (show ¬(e = ETIMEDOUT ∧ h.fd ≠ -1) from fun hc => he hc.1)]
  · intro len2 hl2 n2 e2 rest2
    obtain ⟨m2, rfl⟩ : ∃ m2, len2 = m2 + 1 := ⟨len2 - 1, by omega⟩
    simp only [usb_read]
    split_ifs <;> exact ⟨_, rfl⟩
  · intro len2 oracle2
    exact usb_read_ok_transferred h oracle2 len2

/-- C5 witness: a read of 100 bytes that times out after transferring 40
re-requests exactly the remaining 60 on the next attempt and succeeds. -/
theorem c5_read_retry_spec_witness :
    usb_read sampleLive 100 [((40 : Int), 110), ((60 : Int), 0)] = (ReadRes.ok, [100, 60], 100) := by
  have hc := (c5_read_retry_spec sampleLive 100 40 110 [((60 : Int), 0)]
    (by decide) (by decide)).2.1 (by decide) rfl
  rw [hc]
  decide

/-- C6 counterexample: on a handle with zero mask 63 a write of length 0
(which succeeds trivially) is followed by the zero-length trailer write,
although 0 is not a non-zero multiple of the 64-byte packet size -
refuting the claimed if-and-only-if. -/
theorem c6_zero_length_trailer :
    (usb_write sampleMask64 0 0 0).2 = [0, 0] ∧ ¬(0 % 64 = 0 ∧ (0 : Nat) ≠ 0) := by decide

/-- C6 amended: the parse of a matching two-endpoint descriptor yields
zero mask wMaxPacketSize - 1 exactly when the interface protocol byte is
1 and zero mask 0 otherwise; a fully transferred stream write issues the
single zero-length trailer exactly when the mask is non-zero and the
length has no bits in common with the mask; for the mask 63 of a
64-byte packet size that condition is exactly that the length is a
multiple of 64, zero included. -/
theorem c6_zero_mask_spec (proto mps fuel : Nat) (h : UsbHandle) (len : Nat) (n2 : Int)
    (hm1 : 1 ≤ mps) (hm2 : mps < 65536) :
    ((parse_descriptors is_adb_any (mkAdbBuf proto mps) 50 (fuel + 1)).1 =
      WalkRes.found ⟨129, 2, 1, 3, if proto = 1 then mps - 1 else 0⟩) ∧
    ((usb_write h len (len : Int) n2).2 =
      if h.zero_mask ≠ 0 ∧ len &&& h.zero_mask = 0 then [len, 0] else [len]) ∧
    (h.zero_mask = 63 → ((usb_write h len (len : Int) n2).2 = [len, 0] ↔ len % 64 = 0)) := by
  refine ⟨?_, ?_, ?_⟩
  · have hd : (129 : Nat) &&& 128 = 128 := by decide
    by_cases hp : proto = 1
    · have hscan1 : (scan_endpoints (mkAdbBuf 1 mps) 50 27 0 3).1 =
          EpOut.found ⟨129, 2, 1, 3, (mps % 256 + 256 * (mps / 256) + 4294967295) % 4294967296⟩ := by
        simp [scan_endpoints, ssProbe, readLE16, mkAdbBuf, hd,
          USB_DT_ENDPOINT, USB_DT_ENDPOINT_SIZE, USB_DT_SS_EP_COMP_SIZE,
          USB_DT_SS_ENDPOINT_COMP, USB_ENDPOINT_XFER_BULK, USB_ENDPOINT_DIR_MASK,
          USB_DT_INTERFACE_SIZE, USB_DT_INTERFACE, USB_DT_DEVICE_SIZE, USB_DT_CONFIG_SIZE]
      simp [parse_descriptors, walkAux, mkAdbBuf, is_adb_any, hp,
        USB_DT_DEVICE_SIZE, USB_DT_CONFIG_SIZE, USB_DT_DEVICE,
        USB_DT_CONFIG, USB_DT_INTERFACE, USB_DT_INTERFACE_SIZE]
      rw [hscan1]
      simp
      omega
    · have hscan0 : (scan_endpoints (mkAdbBuf proto mps) 50 27 0 3).1 =
          EpOut.found ⟨129, 2, 1, 3, 0⟩ := by
        simp [scan_endpoints, ssProbe, readLE16, mkAdbBuf, hd, hp,
          USB_DT_ENDPOINT, USB_DT_ENDPOINT_SIZE, USB_DT_SS_EP_COMP_SIZE,
          USB_DT_SS_ENDPOINT_COMP, USB_ENDPOINT_XFER_BULK, USB_ENDPOINT_DIR_MASK,
          USB_DT_INTERFACE_SIZE, USB_DT_INTERFACE, USB_DT_DEVICE_SIZE, USB_DT_CONFIG_SIZE]
      simp [parse_descriptors, walkAux, mkAdbBuf, is_adb_any, hp,
        USB_DT_DEVICE_SIZE, USB_DT_CONFIG_SIZE, USB_DT_DEVICE,
        USB_DT_CONFIG, USB_DT_INTERFACE, USB_DT_INTERFACE_SIZE]
      rw [hscan0]
  · by_cases hz : h.zero_mask ≠ 0 ∧ len &&& h.zero_mask = 0 <;> simp [usb_write, hz]
  · intro hz63
    have h64 : len &&& 63 = len % 64 := by
      have hpow := Nat.and_pow_two_sub_one_eq_mod len 6
      norm_num at hpow
      exact hpow
    by_cases hmod : len % 64 = 0
    · simp [usb_write, hz63, h64, hmod]
    · simp [usb_write, hz63, h64, hmod]

/-- C6 witness: protocol 1 with packet size 64 yields mask 63, and on
that mask a 128-byte write is followed by exactly one zero-length
trailer. -/
theorem c6_zero_mask_spec_witness :
    (parse_descriptors is_adb_any (mkAdbBuf 1 64) 50 1).1 = WalkRes.found ⟨129, 2, 1, 3, 63⟩ ∧
      (usb_write sampleMask64 128 128 0).2 = [128, 0] := by
  constructor
  · have hc := (c6_zero_mask_spec 1 64 0 sampleMask64 128 0 (by decide) (by decide)).1
    simpa using hc
  · exact ((c6_zero_mask_spec 1 64 0 sampleMask64 128 0 (by decide) (by decide)).2.2
      rfl).mpr (by decide)

/-- C7: register_device is idempotent per device path - when the
registry already holds exactly one handle for the path the call returns
with the registry unchanged and no attach notification - and one call
preserves the at-most-one-handle-per-path invariant (whenever it returns
at all; a null stable path makes it fault, see the C9 theorem). -/
theorem c7_register_idempotent (name : String) (dp : Option String)
    (epi epo ifc si zm : Nat) (env : RegEnv) (regs : List UsbHandle) :
    (regs.countP (fun u => u.path == name) = 1 →
      register_device name dp epi epo ifc si zm env regs = some (regs, none)) ∧
    (∀ r att, register_device name dp epi epo ifc si zm env regs = some (r, att) →
      ∀ p : String, regs.countP (fun u => u.path == p) ≤ 1 →
        r.countP (fun u => u.path == p) ≤ 1) := by
  constructor
  · intro hcount
    have hany : regs.any (fun u => u.path == name) = true := by
      rw [List.any_eq_true]
      have hpos : 0 < regs.countP (fun u => u.path == name) := by omega
      exact List.countP_pos_iff.mp hpos
    simp [register_device, hany]
  · intro r att hr p hp
    by_cases hany : regs.any (fun u => u.path == name) = true
    · simp [register_device, hany] at hr
      rcases hr with ⟨rfl, rfl⟩
      exact hp
    · rw [Bool.not_eq_true] at hany
      simp only [register_device, hany, Bool.false_eq_true, if_false] at hr
      split_ifs at hr with h1 h2
      · rcases Option.some.inj hr with ⟨rfl, rfl⟩
        exact hp
      · rcases Option.some.inj hr with ⟨rfl, rfl⟩
        exact hp
      · cases dp with
        | none => cases hr
        | some d =>
          simp only [Option.some.injEq, Prod.mk.injEq] at hr
          obtain ⟨rfl, -⟩ := hr
          rw [List.countP_append]
          have hone : List.countP (fun u => u.path == p)
              [({ path := name, fd := env.fdVal, ep_in := epi, ep_out := epo
                  zero_mask := zm, writeable := env.openRes = OpenResult.rw
                  urb_in_status := 0, urb_out_status := 0, urb_in_actual := 0
                  urb_out_actual := 0, urb_in_busy := false, urb_out_busy := false
                  dead := false, mark := true } : UsbHandle)] =
              if name = p then 1 else 0 := by
            simp only [List.countP_cons, List.countP_nil]
            by_cases hnp : name = p <;> simp [hnp]
          by_cases hnp : name = p
          · subst hnp
            rw [hone]
            simp
            intro a ha
            have hnot := List.any_eq_false.mp hany a ha
            simpa using hnot
          · rw [hone]
            rw [if_neg hnp]
            omega

/-- C7 witness: with the registry already holding the one handle for
path a, a second register call for path a is a no-op, and the invariant
is preserved. -/
theorem c7_register_idempotent_witness :
    register_device "a" (some "usb:1-1") 129 2 1 3 0 envRW [handleA] = some ([handleA], none) ∧
      [handleA].countP (fun u => u.path == "a") ≤ 1 :=
  ⟨(c7_register_idempotent "a" (some "usb:1-1") 129 2 1 3 0 envRW [handleA]).1 (by decide),
   (c7_register_idempotent "a" (some "usb:1-1") 129 2 1 3 0 envRW [handleA]).2 [handleA] none
     ((c7_register_idempotent "a" (some "usb:1-1") 129 2 1 3 0 envRW [handleA]).1 (by decide))
     "a" (by decide)⟩

/-- C8: on a dead handle both bulk operations fail immediately with the
EINVAL invalid-state error and issue no kernel request at all - no
submit, no wait, no reap. -/
theorem c8_dead_handle_fails (h : UsbHandle) (len : Int) (se : Option Nat)
    (evw : List WriteEvent) (evr : List ReapEvent) (hd : h.dead = true) :
    (usb_bulk_write h len se evw).1 = WRes.err EINVAL ∧
    (usb_bulk_write h len se evw).2.2 = [] ∧
    (usb_bulk_read h len se evr).1 = WRes.err EINVAL ∧
    (usb_bulk_read h len se evr).2.2 = [] := by
  simp [usb_bulk_write, usb_bulk_read, hd]

/-- C8 witness: the theorem at a concrete dead handle. -/
theorem c8_dead_handle_fails_witness :
    (usb_bulk_write sampleDead 5 none []).1 = WRes.err EINVAL ∧
    (usb_bulk_write sampleDead 5 none []).2.2 = [] ∧
    (usb_bulk_read sampleDead 5 none []).1 = WRes.err EINVAL ∧
    (usb_bulk_read sampleDead 5 none []).2.2 = [] :=
  c8_dead_handle_fails sampleDead 5 none [] [] rfl

/-- C9 (code_bug evidence): a matched device whose stable path could not
be resolved (the scanner passes a null dev_path) makes register_device
fault - the source computes dev_path + 4 on the null pointer before
reading the serial, which is undefined behaviour, modelled as the none
result - although the spec says absence of the stable path is not an
error; with a present stable path the same registration completes and
inserts the handle with the serial treated as empty when the serial file
cannot be read. -/
theorem c9_null_devpath_faults :
    register_device "/dev/bus/usb/001/002" none 129 2 1 3 0 envRW [] = none ∧
    register_device "/dev/bus/usb/001/002" (some "usb:1-1") 129 2 1 3 0 envRW [] =
      some ([regHandleSample], some ⟨"", "usb:1-1", true⟩) := by decide

/-- C10: a stream read of length 0 returns success with no bulk-read
attempt at all, and its result does not depend on the handle - in
particular it succeeds on a dead handle, because the while loop body
(and with it the lock acquisition, the dead check and the submission)
is never entered. -/
theorem c10_zero_length_read (h h2 : UsbHandle) (oracle : List (Int × Nat)) :
    usb_read h 0 oracle = (ReadRes.ok, [], 0) ∧
    usb_read h 0 oracle = usb_read h2 0 oracle := by
  constructor <;> simp [usb_read]

end UsbLinux
